import Mathlib

/-!
Verification development for the chatapi client library.

This file gives a shallow embedding of the session message multiplexer of
src/chat/session.py and the execution-context manager of src/chat/loop.py,
and proves properties of the embedded operations.

Modelling conventions:
- Python dicts are embedded as association lists with insert-or-overwrite,
  lookup, delete and pop operations mirroring dict semantics.
- Message ids are natural numbers; the source uses str(n) for a strictly
  increasing counter n, and str is injective on these, so correlation
  behaviour is unchanged.
- Bytes values are embedded as strings; utf-8 encode/decode round trips are
  collapsed, and base64 decoding is collapsed to an opaque total map, since
  no verified claim depends on the byte contents.
- asyncio events are embedded as booleans (set / not set); the
  call_soon_threadsafe scheduling of event.set is modelled as the flag
  becoming set.
- Side effects on the transport (stream writes, cancels) are recorded in an
  explicit effect trace in the order the source performs them.
-/

deriving instance DecidableEq for Except

namespace Chat

/-- Python exception values raised by the embedded client code.
rejected models chat.exceptions.Rejected, runtimeError models RuntimeError,
attributeError models the AttributeError raised when an attribute (such as
send_message) is accessed on None, keyError models KeyError on dict lookup,
valueError models ValueError (such as tuple-unpacking failures). -/
inductive PyErr where
  | rejected (text : String)
  | runtimeError (text : String)
  | attributeError
  | keyError
  | valueError (text : String)
  deriving DecidableEq, Repr

/-- The spec groups forbidden-state failures under the name StateError; in
the source these are RuntimeError values (for example the not-logged-in
error and the envelope-stamping errors). AttributeError and KeyError are
not state errors in either taxonomy. -/
def is_state_error : PyErr → Bool
  | .runtimeError _ => true
  | _ => false

/-- Inbound pb.ServerCtrl: correlation id, status code, text, params map. -/
structure ServerCtrl where
  id : Nat
  code : Nat
  text : String
  params : List (String × String)
  topic : String
  deriving DecidableEq, Repr

/-- Inbound pb.ServerMeta: correlation id plus an opaque payload. -/
structure ServerMeta where
  id : Nat
  payload : String
  deriving DecidableEq, Repr

/-- Inbound pb.ServerData push: topic, sender, sequence id, content. -/
structure ServerData where
  topic : String
  from_user_id : String
  seq_id : Nat
  content : String
  deriving DecidableEq, Repr

/-- A non-data server response, the values stored in __non_data_responses. -/
inductive ServerResp where
  | ctrl (c : ServerCtrl)
  | meta (m : ServerMeta)
  deriving DecidableEq, Repr

/-- Correlation id of a non-data response. -/
def resp_id : ServerResp → Nat
  | .ctrl c => c.id
  | .meta m => m.id

/-- types/data.py DataMessage: a wrapper around the raw ServerData. -/
structure DataMessage where
  data : ServerData
  deriving DecidableEq, Repr

/-- The single populated payload case of an outbound pb.ClientMsg. -/
inductive Payload where
  | hi
  | acc (scheme : String) (secret : Option String) (login : Bool)
  | login (scheme : String) (secret : String)
  | sub (topic : String)
  | leave (topic : String) (unsub : Bool)
  | pub (topic : String) (content : String)
  | get (topic : String)
  | set (topic : String)
  | delOp (topic : String) (ranges : List (Int × Int)) (hard : Bool)
  | note (topic : String)
  deriving DecidableEq, Repr

/-- An outbound pb.ClientMsg: one payload case plus the correlation id
stamped into that case (0 models the unset protobuf default). -/
structure ClientMsg where
  payload : Payload
  id : Nat
  deriving DecidableEq, Repr

/-- Transport-visible side effects, recorded in program order. -/
inductive Effect where
  | register_pending (id : Nat)
  | stream_write (m : ClientMsg)
  | stream_cancel
  | channel_close
  | future_cancel
  deriving DecidableEq, Repr

section AssocList

variable {κ α : Type} [DecidableEq κ]

/-- Python dict lookup d[k], as an Option. -/
def alLookup : List (κ × α) → κ → Option α
  | [], _ => none
  | (k, v) :: rest, key => if k = key then some v else alLookup rest key

/-- Python dict assignment d[k] = v: overwrite in place, or append. -/
def alInsert : List (κ × α) → κ → α → List (κ × α)
  | [], key, v => [(key, v)]
  | (k, w) :: rest, key, v =>
      if k = key then (key, v) :: rest else (k, w) :: alInsert rest key v

/-- Python del d[k], removing the entry for k if present. -/
def alErase : List (κ × α) → κ → List (κ × α)
  | [], _ => []
  | (k, w) :: rest, key => if k = key then rest else (k, w) :: alErase rest key

/-- Python dict d.pop(k): the removed value and the remaining entries,
or none when k is absent (in which case the source raises KeyError). -/
def alPop (l : List (κ × α)) (key : κ) : Option (α × List (κ × α)) :=
  match alLookup l key with
  | none => none
  | some v => some (v, alErase l key)

end AssocList

/-- The mutable state of a ChatSession, from session.py.
non_data_events embeds __non_data_events (dict of message id to
asyncio.Event, the Bool being the event-set flag); non_data_responses
embeds __non_data_responses; data_event_set and data_messages embed
__data_event and the __data_messages queue; userId embeds __user_id;
next_message_id embeds __next_message_id; stream_open is whether
__stream is not None; channel_open is whether __channel is not None;
message_loop_started is whether __message_loop_future is not None;
ready_for_messages embeds the __ready_for_messages threading event;
event_loop_running is whether the supplied chat event loop is running. -/
structure SessionState where
  non_data_events : List (Nat × Bool)
  non_data_responses : List (Nat × ServerResp)
  data_event_set : Bool
  data_messages : List DataMessage
  userId : Option String
  next_message_id : Nat
  stream_open : Bool
  channel_open : Bool
  message_loop_started : Bool
  ready_for_messages : Bool
  event_loop_running : Bool
  deriving DecidableEq, Repr

/-- The user_id property: raises RuntimeError when no user is
authenticated, otherwise returns the authenticated user id. -/
def user_id (s : SessionState) : Except PyErr String :=
  match s.userId with
  | none => .error (.runtimeError "Not logged in yet")
  | some u => .ok u

/-- __ensure_message_loop_started. When the message loop future already
exists this is a no-op (the caller then waits on the already-set readiness
event). On first use it raises RuntimeError when the supplied event loop is
not running, and otherwise schedules __message_loop; the handshake performed
by the message loop (open the stream, exchange the hi message, set the
readiness event) is collapsed into the same step, since the caller blocks
on ready_for_messages until the handshake completes. -/
def ensure_message_loop_started (s : SessionState) : Except PyErr SessionState :=
  if s.message_loop_started then .ok s
  else if s.event_loop_running = false then
    .error (.runtimeError "Supplied event loop is not running")
  else .ok { s with message_loop_started := true, stream_open := true,
                    channel_open := true, ready_for_messages := true }

/-- __set_message_id: stamp the id into the single populated payload case;
note payloads are fire-and-forget and are left unstamped. The zero-or-many
populated-cases checks of the source cannot fire here because Payload is a
sum type with exactly one case. -/
def set_message_id (m : ClientMsg) (mid : Nat) : ClientMsg :=
  match m.payload with
  | .note _ => m
  | _ => { m with id := mid }

/-- Result of the sending half of __send_message: the state after the
mutations that were reached, the transport effects in program order, and
either the allocated message id or the raised exception. -/
structure SendResult where
  state : SessionState
  effects : List Effect
  result : Except PyErr Nat
  deriving DecidableEq, Repr

/-- The sending half of __send_message (lines up to the stream write):
ensure the message loop is started, allocate the next message id, stamp it
into the envelope, register the PendingRequest event when a response is
expected, then write the envelope to the stream. A write on a cleared
(None) stream raises AttributeError; note that the event registration has
already happened by then. -/
def send_message_phase1 (s : SessionState) (p : Payload) (no_response : Bool) :
    SendResult :=
  match ensure_message_loop_started s with
  | .error e => { state := s, effects := [], result := .error e }
  | .ok s1 =>
    let mid := s1.next_message_id + 1
    let s2 := { s1 with next_message_id := mid }
    let m := set_message_id { payload := p, id := 0 } mid
    let regpair :=
      if no_response then (s2, ([] : List Effect))
      else ({ s2 with non_data_events := alInsert s2.non_data_events mid false },
            [Effect.register_pending mid])
    if regpair.1.stream_open then
      { state := regpair.1, effects := regpair.2 ++ [Effect.stream_write m],
        result := .ok mid }
    else
      { state := regpair.1, effects := regpair.2, result := .error .attributeError }

/-- __raise_for_ctrl_status: the exception raised for a ServerCtrl status,
or none when the status is outside both error bands. -/
def raise_for_ctrl_status (c : ServerCtrl) : Option PyErr :=
  if 400 ≤ c.code ∧ c.code < 500 then some (.rejected c.text)
  else if 500 ≤ c.code ∧ c.code < 600 then
    some (.runtimeError ("Server error: " ++ c.text))
  else none

/-- The receiving half of __send_message, entered once the awaited event is
set: delete the event entry, pop the response, and raise for the status of
a ctrl response. Returns none while the caller is still blocked on the
event (no timeout exists in the source). -/
def recv_response (s : SessionState) (mid : Nat) :
    Option (SessionState × Except PyErr ServerResp) :=
  match alLookup s.non_data_events mid with
  | some true =>
    let s1 := { s with non_data_events := alErase s.non_data_events mid }
    match alPop s1.non_data_responses mid with
    | none => some (s1, .error .keyError)
    | some (resp, rest) =>
      let s2 := { s1 with non_data_responses := rest }
      match resp with
      | .ctrl c =>
        match raise_for_ctrl_status c with
        | some e => some (s2, .error e)
        | none => some (s2, .ok resp)
      | .meta _ => some (s2, .ok resp)
  | _ => none

/-- __handle_ctrl_msg, run by the dispatch loop: store the response under
its id, then look up the id in the event dict (KeyError when absent — the
response has already been stored by that point) and set the event. -/
def handle_ctrl_msg (s : SessionState) (c : ServerCtrl) :
    SessionState × Option PyErr :=
  let s1 := { s with
    non_data_responses := alInsert s.non_data_responses c.id (.ctrl c) }
  match alLookup s1.non_data_events c.id with
  | none => (s1, some .keyError)
  | some _ =>
    ({ s1 with non_data_events := alInsert s1.non_data_events c.id true }, none)

/-- __handle_meta_msg: identical structure to __handle_ctrl_msg. -/
def handle_meta_msg (s : SessionState) (m : ServerMeta) :
    SessionState × Option PyErr :=
  let s1 := { s with
    non_data_responses := alInsert s.non_data_responses m.id (.meta m) }
  match alLookup s1.non_data_events m.id with
  | none => (s1, some .keyError)
  | some _ =>
    ({ s1 with non_data_events := alInsert s1.non_data_events m.id true }, none)

/-- queue.Queue.put on the data-message queue: append at the tail. -/
def queue_put (q : List DataMessage) (m : DataMessage) : List DataMessage :=
  q ++ [m]

/-- queue.Queue.get_nowait: the head element and the remaining queue, or
none when the queue is empty (queue.Empty). -/
def queue_get_nowait (q : List DataMessage) :
    Option (DataMessage × List DataMessage) :=
  match q with
  | [] => none
  | m :: rest => some (m, rest)

/-- __handle_data_msg: wrap the push in a DataMessage, put it on the queue,
and set the data event so the messages generator can resume. -/
def handle_data_msg (s : SessionState) (d : ServerData) : SessionState :=
  { s with data_messages := queue_put s.data_messages ⟨d⟩,
           data_event_set := true }

/-- The inner drain loop of the messages generator: repeatedly get_nowait
and yield until queue.Empty breaks the loop. -/
def drain_queue (q : List DataMessage) : List DataMessage :=
  match h : queue_get_nowait q with
  | none => []
  | some (m, rest) => m :: drain_queue rest
termination_by q.length
decreasing_by
  cases q with
  | nil => simp [queue_get_nowait] at h
  | cons a as =>
      simp [queue_get_nowait] at h
      simp [h.2]

/-- One resumption of the messages async generator: wait until the data
event is set (none while blocked), clear it, then drain the queue. -/
def messages_drain (s : SessionState) :
    Option (List DataMessage × SessionState) :=
  if s.data_event_set then
    some (drain_queue s.data_messages,
          { s with data_event_set := false, data_messages := [] })
  else none

/-- close(): cancel and clear the stream when present, close the channel
when present, cancel the message loop future when present. Neither the
future reference, the readiness event, nor the correlation tables are
cleared by close. -/
def close (s : SessionState) : SessionState × List Effect :=
  let p1 :=
    if s.stream_open then
      ({ s with stream_open := false }, [Effect.stream_cancel])
    else (s, [])
  let e2 := if p1.1.channel_open then [Effect.channel_close] else []
  let e3 := if p1.1.message_loop_started then [Effect.future_cancel] else []
  (p1.1, p1.2 ++ e2 ++ e3)

/-- Dispatch of one non-data server message by the body of the async-for in
__message_loop. -/
def handle_resp (s : SessionState) : ServerResp → SessionState × Option PyErr
  | .ctrl c => handle_ctrl_msg s c
  | .meta m => handle_meta_msg s m

/-- The dispatch loop servicing a sequence of non-data replies, stopping at
the first unhandled exception as the async-for body would. -/
def dispatch_replies (s : SessionState) :
    List ServerResp → SessionState × Option PyErr
  | [] => (s, none)
  | r :: rest =>
    match handle_resp s r with
    | (s1, none) => dispatch_replies s1 rest
    | (s1, some e) => (s1, some e)

/-- Whether a reply would be returned to the caller rather than raised:
ctrl replies with a status outside both error bands, and all meta replies. -/
def resp_success : ServerResp → Bool
  | .ctrl c => decide (c.code < 400) || decide (600 ≤ c.code)
  | .meta _ => true

/-- The state left by a successful handler step for a correlated reply:
the payload is stored under its id and the id's event is set. -/
def resolved_state (s : SessionState) (r : ServerResp) : SessionState :=
  { s with
      non_data_responses := (alInsert s.non_data_responses (resp_id r) r),
      non_data_events := (alInsert s.non_data_events (resp_id r) true) }

/-- The dynamic type of the secret argument of login and register: a str,
a bytes value, Python None (the register default), or a value of any other
type. -/
inductive Secret where
  | str (s : String)
  | bytes (b : String)
  | none
  | other
  deriving DecidableEq, Repr

def allowed_authentication_schemes_login : List String := ["basic", "token"]

def allowed_authentication_schemes_register : List String :=
  ["anonymous", "basic"]

/-- base64.b64decode, collapsed to an opaque total transformation: the
verified claims do not depend on the decoded bytes. -/
def b64decode (s : String) : String := s

/-- The local validation prefix of login(): reject a scheme outside
basic and token, utf-8 encode a str secret (base64-decoding it for the
token scheme), accept bytes, and reject every other secret type. Error
texts are carried without the Python list repr punctuation. -/
def login_validate (secret : Secret) (scheme : String) : Except PyErr String :=
  if scheme ∉ allowed_authentication_schemes_login then
    .error (.rejected "Authentication scheme must be one of basic, token")
  else
    match secret with
    | .str s => .ok (if scheme = "token" then b64decode s else s)
    | .bytes b => .ok b
    | _ => .error (.rejected "Authentication secret must be str or bytes")

/-- The local validation prefix of register(): reject a scheme outside
anonymous and basic, utf-8 encode a str secret, accept bytes, and reject
every other secret type unless the scheme is anonymous (in which case the
secret is passed through unencoded, modelled as none). -/
def register_validate (secret : Secret) (scheme : String) :
    Except PyErr (Option String) :=
  if scheme ∉ allowed_authentication_schemes_register then
    .error (.rejected "Authentication scheme must be one of anonymous, basic")
  else
    match secret with
    | .str s => .ok (some s)
    | .bytes b => .ok (some b)
    | _ =>
      if scheme = "anonymous" then .ok Option.none
      else .error (.rejected "Authentication secret must be str or bytes")

/-- The locally-executed part of login(): validation followed by the
sending half of __send_message with a login envelope. A validation failure
raises before __send_message is reached, so the state is untouched and no
transport effect occurs. -/
def login_op (s : SessionState) (secret : Secret) (scheme : String) :
    SendResult :=
  match login_validate secret scheme with
  | .error e => { state := s, effects := [], result := .error e }
  | .ok sec => send_message_phase1 s (.login scheme sec) false

/-- The locally-executed part of register(): validation followed by the
sending half of __send_message with an acc envelope. -/
def register_op (s : SessionState) (secret : Secret) (scheme : String) :
    SendResult :=
  match register_validate secret scheme with
  | .error e => { state := s, effects := [], result := .error e }
  | .ok sec => send_message_phase1 s (.acc scheme sec true) false

/-- Protobuf map access ctrl.params[k]: a missing key yields the default
empty bytes value rather than KeyError. -/
def pb_map_get (m : List (String × String)) (k : String) : String :=
  (alLookup m k).getD ""

/-- json.loads of a decoded bytes value: raises on empty input (the
protobuf default for a missing param), otherwise collapsed to the decoded
payload itself. -/
def json_loads (s : String) : Except PyErr String :=
  if s = "" then .error (.valueError "Expecting value") else .ok s

/-- A full request/response round trip of __send_message for one caller:
the sending half, then the dispatch loop handling the correlated ctrl
reply (the server echoes the allocated message id), then the receiving
half once the event is set. -/
def send_round_trip (s : SessionState) (p : Payload) (reply : ServerCtrl) :
    SessionState × Except PyErr ServerResp :=
  let r1 := send_message_phase1 s p false
  match r1.result with
  | .error e => (r1.state, .error e)
  | .ok mid =>
    match handle_ctrl_msg r1.state { reply with id := mid } with
    | (s2, some e) => (s2, .error e)
    | (s2, Option.none) =>
      match recv_response s2 mid with
      | some (s3, res) => (s3, res)
      | Option.none => (s2, .error .keyError)
      -- unreachable: the handler has just set the event for mid

/-- login() end to end against a correlated ctrl reply: validate, run the
__send_message round trip, then decode the user and token params and
record the authenticated user id. The result is the returned token. -/
def login_round_trip (s : SessionState) (secret : Secret) (scheme : String)
    (reply : ServerCtrl) : SessionState × Except PyErr String :=
  match login_validate secret scheme with
  | .error e => (s, .error e)
  | .ok sec =>
    match send_round_trip s (.login scheme sec) reply with
    | (s1, .error e) => (s1, .error e)
    | (s1, .ok (.meta _)) => (s1, .error .keyError)
      -- unreachable: a ctrl reply round trip returns a ctrl response
    | (s1, .ok (.ctrl c)) =>
      match json_loads (pb_map_get c.params "user") with
      | .error e => (s1, .error e)
      | .ok u =>
        let s2 := { s1 with userId := some u }
        match json_loads (pb_map_get c.params "token") with
        | .error e => (s2, .error e)
        | .ok t => (s2, .ok t)

/-- register() end to end against a correlated ctrl reply, mirroring
login_round_trip with the register validation and an acc envelope. -/
def register_round_trip (s : SessionState) (secret : Secret) (scheme : String)
    (reply : ServerCtrl) : SessionState × Except PyErr String :=
  match register_validate secret scheme with
  | .error e => (s, .error e)
  | .ok sec =>
    match send_round_trip s (.acc scheme sec true) reply with
    | (s1, .error e) => (s1, .error e)
    | (s1, .ok (.meta _)) => (s1, .error .keyError)
    | (s1, .ok (.ctrl c)) =>
      match json_loads (pb_map_get c.params "user") with
      | .error e => (s1, .error e)
      | .ok u =>
        let s2 := { s1 with userId := some u }
        match json_loads (pb_map_get c.params "token") with
        | .error e => (s2, .error e)
        | .ok t => (s2, .ok t)

/-- An element of a messages list passed to delete_messages: a Python int,
a pair tuple, or a value of any other type. -/
inductive DelElem where
  | int (m : Int)
  | tuple (lo hi : Int)
  | other
  deriving DecidableEq, Repr

/-- The messages argument of delete_messages: an int, a pair tuple, a list
of elements, or a value of any other type. -/
inductive DelArg where
  | int (m : Int)
  | tuple (lo hi : Int)
  | list (xs : List DelElem)
  | other
  deriving DecidableEq, Repr

/-- An entry of the normalized messages list built by delete_messages: a
pair tuple, or — produced by the list branch for int elements — a
singleton list holding a pair tuple. -/
inductive NormElem where
  | tup (lo hi : Int)
  | singletonListTup (lo hi : Int)
  deriving DecidableEq, Repr

/-- Normalization of one element of a list argument, as in the for loop of
delete_messages: an int element is appended as [(m, m + 1)] — a singleton
list, not a tuple — a tuple element is appended as itself, and any other
element raises Rejected. -/
def normalize_list_elem : DelElem → Except PyErr NormElem
  | .int m => .ok (.singletonListTup m (m + 1))
  | .tuple lo hi => .ok (.tup lo hi)
  | .other => .error (.rejected "Invalid format of messages to delete")

/-- The normalization prefix of delete_messages over the whole argument. -/
def normalize_delete_messages : DelArg → Except PyErr (List NormElem)
  | .int m => .ok [.tup m (m + 1)]
  | .tuple lo hi => .ok [.tup lo hi]
  | .list xs => xs.mapM normalize_list_elem
  | .other => .error (.rejected "Invalid format of messages to delete")

/-- The destructuring in the SeqRange comprehension, for low, hi in
messages: a pair tuple unpacks, a singleton list raises ValueError. -/
def unpack_pair : NormElem → Except PyErr (Int × Int)
  | .tup lo hi => .ok (lo, hi)
  | .singletonListTup _ _ =>
      .error (.valueError "not enough values to unpack, expected 2, got 1")

/-- The id ranges delete_messages would place in del_seq, or the exception
raised while building them. Both normalization and the comprehension run
before the envelope is handed to __send_message. -/
def delete_messages_seq_ranges (arg : DelArg) :
    Except PyErr (List (Int × Int)) := do
  let ns ← normalize_delete_messages arg
  ns.mapM unpack_pair

/-- delete_messages(): build del_seq, then run the sending half of
__send_message with the del envelope. Errors while building del_seq occur
before any network activity, so no transport effect is recorded. -/
def delete_messages (s : SessionState) (topic : String) (arg : DelArg)
    (hard : Bool) : SendResult :=
  match delete_messages_seq_ranges arg with
  | .error e => { state := s, effects := [], result := .error e }
  | .ok ranges => send_message_phase1 s (.delOp topic ranges hard) false

/-- The state of a ChatLoop from loop.py: the event loop and worker thread
handles (none until first use), plus instrumentation counting how many of
each were ever created, so that at-most-one-creation is expressible.
Handles are numbered by creation order. -/
structure ChatLoopState where
  loop : Option Nat
  thread : Option Nat
  loops_created : Nat
  threads_created : Nat
  deriving DecidableEq, Repr

/-- A freshly constructed ChatLoop: nothing started yet. -/
def fresh_chat_loop : ChatLoopState := ⟨Option.none, Option.none, 0, 0⟩

/-- new_session(): under the lock, create the event loop and the worker
thread when no loop exists yet, then return a session bound to the current
loop. The lock serializes the check-and-create, so concurrent callers are
modelled by any sequential ordering of their critical sections. -/
def new_session (s : ChatLoopState) : ChatLoopState × Nat :=
  match s.loop with
  | Option.none =>
    let st : ChatLoopState :=
      { loop := some s.loops_created, thread := some s.threads_created,
        loops_created := s.loops_created + 1,
        threads_created := s.threads_created + 1 }
    (st, s.loops_created)
  | some l => (s, l)

/-- stop(): signal the loop to stop when one exists, and join the thread
when one exists. Returns (loop signalled, thread joined). -/
def stop (s : ChatLoopState) : Option Nat × Option Nat := (s.loop, s.thread)

/-- n successive new_session calls on one freshly constructed ChatLoop. -/
def iterate_new_session : Nat → ChatLoopState
  | 0 => fresh_chat_loop
  | n + 1 => (new_session (iterate_new_session n)).1

/-- A concrete ready session state: message loop started, handshake done,
stream open, no pending requests, nobody logged in. -/
def ready_state : SessionState :=
  { non_data_events := [], non_data_responses := [], data_event_set := false,
    data_messages := [], userId := Option.none, next_message_id := 100,
    stream_open := true, channel_open := true, message_loop_started := true,
    ready_for_messages := true, event_loop_running := true }

/-! Helper lemmas about the association-list dict operations. -/

section AssocListLemmas

variable {κ α : Type} [DecidableEq κ]

theorem alLookup_insert_self (l : List (κ × α)) (key : κ) (v : α) :
    alLookup (alInsert l key v) key = some v := by
  induction l with
  | nil => simp [alInsert, alLookup]
  | cons hd tl ih =>
      obtain ⟨k, w⟩ := hd
      by_cases h : k = key
      · simp [alInsert, alLookup, h]
      · simp [alInsert, alLookup, h, ih]

theorem alLookup_insert_ne (l : List (κ × α)) (key j : κ) (v : α)
    (h : key ≠ j) : alLookup (alInsert l key v) j = alLookup l j := by
  induction l with
  | nil => simp [alInsert, alLookup, h]
  | cons hd tl ih =>
      obtain ⟨k, w⟩ := hd
      by_cases hk : k = key
      · subst hk
        simp [alInsert, alLookup, h]
      · simp [alInsert, alLookup, hk, ih]

theorem alLookup_insert_isSome (l : List (κ × α)) (key j : κ) (v : α)
    (h : (alLookup l j).isSome = true) :
    (alLookup (alInsert l key v) j).isSome = true := by
  by_cases hkj : key = j
  · subst hkj
    simp [alLookup_insert_self]
  · rwa [alLookup_insert_ne l key j v hkj]

end AssocListLemmas

/-! Claim C6: push-queue FIFO delivery. -/

theorem drain_queue_eq (q : List DataMessage) : drain_queue q = q := by
  induction q with
  | nil =>
      rw [drain_queue]
      simp [queue_get_nowait]
  | cons m rest ih =>
      rw [drain_queue]
      simp [queue_get_nowait, ih]

theorem foldl_handle_data_msg (s : SessionState) (ds : List ServerData) :
    (List.foldl handle_data_msg s ds).data_messages =
      s.data_messages ++ ds.map (fun d => ⟨d⟩) := by
  induction ds generalizing s with
  | nil => simp
  | cons d rest ih =>
      simp [List.foldl, ih, handle_data_msg, queue_put]

theorem foldl_handle_data_msg_event (s : SessionState) (ds : List ServerData)
    (h : ds ≠ []) :
    (List.foldl handle_data_msg s ds).data_event_set = true := by
  induction ds generalizing s with
  | nil => exact absurd rfl h
  | cons d rest ih =>
      cases rest with
      | nil => simp [List.foldl, handle_data_msg]
      | cons d2 rest2 =>
          simpa [List.foldl] using ih (handle_data_msg s d) (by simp)

/-- Claim C6: for every sequence of DataPush envelopes appended by the
dispatch loop, a messages() consumer that resumes afterwards yields every
queued entry in exactly arrival order — the entries already queued before
draining began, followed by the new pushes in the order they arrived —
with no reordering, duplication or loss. -/
theorem messages_yields_pushes_in_arrival_order (s : SessionState)
    (ds : List ServerData) (h : ds ≠ []) :
    messages_drain (List.foldl handle_data_msg s ds) =
      some (s.data_messages ++ ds.map (fun d => ⟨d⟩),
            { List.foldl handle_data_msg s ds with
                data_event_set := false, data_messages := [] }) := by
  unfold messages_drain
  rw [foldl_handle_data_msg_event s ds h]
  simp [drain_queue_eq, foldl_handle_data_msg]

/-- Witness for C6: pushes with sequence ids 1, 2, 3 queued before the
consumer drains are yielded in exactly that order. -/
theorem messages_yields_pushes_in_arrival_order_witness :
    messages_drain (List.foldl handle_data_msg ready_state
        [⟨"t", "u", 1, "a"⟩, ⟨"t", "u", 2, "b"⟩, ⟨"t", "u", 3, "c"⟩]) =
      some ([⟨⟨"t", "u", 1, "a"⟩⟩, ⟨⟨"t", "u", 2, "b"⟩⟩, ⟨⟨"t", "u", 3, "c"⟩⟩],
            { List.foldl handle_data_msg ready_state
                [⟨"t", "u", 1, "a"⟩, ⟨"t", "u", 2, "b"⟩, ⟨"t", "u", 3, "c"⟩] with
                data_event_set := false, data_messages := [] }) := by
  have h := messages_yields_pushes_in_arrival_order ready_state
    [⟨"t", "u", 1, "a"⟩, ⟨"t", "u", 2, "b"⟩, ⟨"t", "u", 3, "c"⟩] (by simp)
  simpa [ready_state] using h

/-! Claim C7: single event loop and worker thread per manager. -/

theorem iterate_new_session_one :
    iterate_new_session 1 =
      { loop := some 0, thread := some 0,
        loops_created := 1, threads_created := 1 } := rfl

theorem iterate_new_session_stable (n : Nat) (h : 1 ≤ n) :
    iterate_new_session n = iterate_new_session 1 := by
  induction n with
  | zero => omega
  | succ k ih =>
      cases Nat.eq_zero_or_pos k with
      | inl hk => subst hk; rfl
      | inr hk =>
          show (new_session (iterate_new_session k)).1 = iterate_new_session 1
          rw [ih hk, iterate_new_session_one]
          rfl

/-- Claim C7: for every number n of new_session calls on one manager, at
most one event loop and one worker thread are ever created: the first call
creates exactly one of each, every later call returns the same state
unchanged, stop() signals and joins exactly that one loop and thread, and
stop() on a never-started manager is a no-op. -/
theorem single_loop_single_thread (n : Nat) (h : 1 ≤ n) :
    (iterate_new_session n).loops_created = 1 ∧
    (iterate_new_session n).threads_created = 1 ∧
    (iterate_new_session n).loop = some 0 ∧
    (iterate_new_session n).thread = some 0 ∧
    stop (iterate_new_session n) = (some 0, some 0) ∧
    (new_session (iterate_new_session n)).1 = iterate_new_session n ∧
    stop fresh_chat_loop = (Option.none, Option.none) := by
  rw [iterate_new_session_stable n h, iterate_new_session_one]
  exact ⟨rfl, rfl, rfl, rfl, rfl, rfl, rfl⟩

/-- Witness for C7: three new_session calls create one loop and thread. -/
theorem single_loop_single_thread_witness :
    (iterate_new_session 3).loops_created = 1 ∧
    (iterate_new_session 3).threads_created = 1 ∧
    (iterate_new_session 3).loop = some 0 ∧
    (iterate_new_session 3).thread = some 0 ∧
    stop (iterate_new_session 3) = (some 0, some 0) ∧
    (new_session (iterate_new_session 3)).1 = iterate_new_session 3 ∧
    stop fresh_chat_loop = (Option.none, Option.none) :=
  single_loop_single_thread 3 (by omega)

/-! Claim C8: delete_messages argument handling. The list branch of the
normalization appends a singleton list rather than a tuple for an int
element, so the SeqRange comprehension unpacking raises ValueError for
every list argument containing a plain id — including the example in the
docstring of delete_messages itself. -/

/-- Claim C8, evaluated at the failing input: a single id and a pure tuple
list normalize as documented, and malformed arguments raise Rejected with
no transport effect, but the docstring example [65, (123, 126), (200, 201)]
raises ValueError while building del_seq instead of sending the documented
ranges — the code contradicts its own documentation. -/
theorem delete_messages_list_id_valueerror :
    delete_messages_seq_ranges (.int 65) = .ok [(65, 66)] ∧
    delete_messages_seq_ranges (.tuple 123 126) = .ok [(123, 126)] ∧
    delete_messages_seq_ranges (.list [.tuple 123 126, .tuple 200 201]) =
      .ok [(123, 126), (200, 201)] ∧
    delete_messages_seq_ranges (.list [.int 65, .tuple 123 126, .tuple 200 201]) =
      .error (.valueError "not enough values to unpack, expected 2, got 1") ∧
    delete_messages ready_state "topic1"
        (.list [.int 65, .tuple 123 126, .tuple 200 201]) false =
      { state := ready_state, effects := [],
        result := .error (.valueError "not enough values to unpack, expected 2, got 1") } ∧
    delete_messages ready_state "topic1" (.list [.int 65, .other]) false =
      { state := ready_state, effects := [],
        result := .error (.rejected "Invalid format of messages to delete") } ∧
    delete_messages ready_state "topic1" .other false =
      { state := ready_state, effects := [],
        result := .error (.rejected "Invalid format of messages to delete") } :=
  ⟨rfl, rfl, rfl, rfl, rfl, rfl, rfl⟩

/-! Claim C3: sends after close. close() clears the stream reference but
leaves the message loop future and readiness flag in place, so a later
send passes the started checks and then dereferences the cleared stream,
raising AttributeError — not a state error. -/

theorem close_stream_closed (s : SessionState) :
    (close s).1.stream_open = false := by
  by_cases h : s.stream_open <;> simp [close, h]

theorem close_keeps_loop_started (s : SessionState) :
    (close s).1.message_loop_started = s.message_loop_started := by
  by_cases h : s.stream_open <;> simp [close, h]

/-- Claim C3 counterexample: on a ready session that has been closed, the
next envelope-sending operation raises AttributeError from the cleared
(None) stream handle, which is not a state error, falsifying the claim
that a StateError is raised. -/
theorem send_after_close_counterexample :
    (send_message_phase1 (close ready_state).1 (.sub "general") false).result =
      .error .attributeError ∧
    is_state_error .attributeError = false :=
  ⟨rfl, rfl⟩

/-- Claim C3 (amended): after close() completes on a started session,
every subsequent operation that sends an envelope fails — it never
succeeds — but it does so with an AttributeError raised by the write on
the cleared stream handle, not with a StateError. -/
theorem send_after_close_attribute_error (s : SessionState) (p : Payload)
    (no_response : Bool)
    (hstart : s.message_loop_started = true) :
    (send_message_phase1 (close s).1 p no_response).result =
      .error .attributeError ∧
    is_state_error .attributeError = false := by
  refine ⟨?_, rfl⟩
  have h1 := close_stream_closed s
  have h2 := close_keeps_loop_started s
  rw [hstart] at h2
  cases no_response <;>
    simp [send_message_phase1, ensure_message_loop_started, h1, h2]

/-- Witness for the amended C3: a concrete ready session, closed, then
asked to send a subscribe envelope. -/
theorem send_after_close_attribute_error_witness :
    (send_message_phase1 (close ready_state).1 (.sub "general") false).result =
      .error .attributeError ∧
    is_state_error .attributeError = false :=
  send_after_close_attribute_error ready_state (.sub "general") false rfl

/-! Claim C4: replies with no matching PendingRequest. The handlers store
the response payload first and then index the event dict, so an unknown id
raises KeyError inside the dispatch loop instead of being dropped. -/

/-- Claim C4 counterexample: a ctrl reply whose id has no registered event
is not dropped — the handler stores the payload and then faults with
KeyError, so the dispatch loop does not continue unaffected. -/
theorem unmatched_reply_counterexample :
    (handle_ctrl_msg ready_state ⟨42, 200, "ok", [], ""⟩).2 = some .keyError ∧
    (handle_ctrl_msg ready_state ⟨42, 200, "ok", [], ""⟩).1.non_data_responses =
      [(42, .ctrl ⟨42, 200, "ok", [], ""⟩)] ∧
    (handle_meta_msg ready_state ⟨43, "m"⟩).2 = some .keyError :=
  ⟨rfl, rfl, rfl⟩

/-- Claim C4 (amended): when the dispatch loop receives a ControlReply or
MetaReply whose id has no matching PendingRequest, the handler first
stores the payload in the response table and then raises KeyError on the
event lookup; the reply is not silently dropped and the exception escapes
into the dispatch loop. -/
theorem unmatched_reply_raises_keyerror (s : SessionState) (c : ServerCtrl)
    (m : ServerMeta)
    (hc : alLookup s.non_data_events c.id = Option.none)
    (hm : alLookup s.non_data_events m.id = Option.none) :
    handle_ctrl_msg s c =
      ({ s with non_data_responses :=
          alInsert s.non_data_responses c.id (.ctrl c) }, some .keyError) ∧
    handle_meta_msg s m =
      ({ s with non_data_responses :=
          alInsert s.non_data_responses m.id (.meta m) }, some .keyError) := by
  constructor
  · simp [handle_ctrl_msg, hc]
  · simp [handle_meta_msg, hm]

/-- Witness for the amended C4: an unregistered id 42 faults and leaves
its payload behind in the response table. -/
theorem unmatched_reply_raises_keyerror_witness :
    handle_ctrl_msg ready_state ⟨42, 200, "ok", [], ""⟩ =
      ({ ready_state with non_data_responses :=
          (alInsert ready_state.non_data_responses 42
            (.ctrl ⟨42, 200, "ok", [], ""⟩)) }, some .keyError) ∧
    handle_meta_msg ready_state ⟨43, "m"⟩ =
      ({ ready_state with non_data_responses :=
          (alInsert ready_state.non_data_responses 43
            (.meta ⟨43, "m"⟩)) }, some .keyError) :=
  unmatched_reply_raises_keyerror ready_state ⟨42, 200, "ok", [], ""⟩
    ⟨43, "m"⟩ rfl rfl

/-! Claim C5: the PendingRequest is registered before the envelope is
written to the stream. -/

/-- Claim C5: for every response-expecting send on a ready session, the
effect trace of __send_message is exactly the PendingRequest registration
for the freshly allocated id followed by the stream write of the envelope
stamped with that id; consequently every stream write of an id in the
trace is preceded by the registration of that id, so at no point is an id
in flight while its correlation entry is unregistered. -/
theorem pending_registered_before_stream_write (s : SessionState) (p : Payload)
    (hstart : s.message_loop_started = true)
    (hstream : s.stream_open = true)
    (hp : ∀ t, p ≠ .note t) :
    send_message_phase1 s p false =
      { state :=
          { s with
              next_message_id := s.next_message_id + 1,
              non_data_events :=
                (alInsert s.non_data_events (s.next_message_id + 1) false) },
        effects := [Effect.register_pending (s.next_message_id + 1),
                    Effect.stream_write ⟨p, s.next_message_id + 1⟩],
        result := .ok (s.next_message_id + 1) } ∧
    (∀ pre post m,
        (send_message_phase1 s p false).effects =
          pre ++ Effect.stream_write m :: post →
        Effect.register_pending m.id ∈ pre) := by
  have hset : set_message_id ⟨p, 0⟩ (s.next_message_id + 1) =
      ⟨p, s.next_message_id + 1⟩ := by
    cases p with
    | note t => exact absurd rfl (hp t)
    | _ => rfl
  have hmain : send_message_phase1 s p false =
      { state :=
          { s with
              next_message_id := s.next_message_id + 1,
              non_data_events :=
                (alInsert s.non_data_events (s.next_message_id + 1) false) },
        effects := [Effect.register_pending (s.next_message_id + 1),
                    Effect.stream_write ⟨p, s.next_message_id + 1⟩],
        result := .ok (s.next_message_id + 1) } := by
    simp [send_message_phase1, ensure_message_loop_started, hstart, hstream,
          hset]
  refine ⟨hmain, ?_⟩
  intro pre post m hEq
  rw [hmain] at hEq
  cases pre with
  | nil => simp at hEq
  | cons a pre2 =>
      simp at hEq
      obtain ⟨ha, hEq2⟩ := hEq
      cases pre2 with
      | nil =>
          simp at hEq2
          obtain ⟨hm, _⟩ := hEq2
          simp [ha, ← hm]
      | cons b pre3 =>
          simp at hEq2

/-- Witness for C5: a concrete subscribe send on a ready session, whose
effect trace registers id 101 and only then writes the envelope. -/
theorem pending_registered_before_stream_write_witness :
    (send_message_phase1 ready_state (.sub "general") false).effects =
      [Effect.register_pending 101,
       Effect.stream_write ⟨.sub "general", 101⟩] := by
  have h := pending_registered_before_stream_write ready_state (.sub "general")
    rfl rfl (fun t ht => Payload.noConfusion ht)
  rw [h.1]
  rfl

/-! Claim C9: login and register validation is local and synchronous. -/

/-- Claim C9: login with a scheme outside basic and token, register with a
scheme outside anonymous and basic, and either call with a secret that is
neither str nor bytes (except register with the anonymous scheme) raise
Rejected synchronously: the session state is untouched and no transport
effect occurs, so no envelope is sent and the execution context is never
involved. -/
theorem auth_validation_is_local (s : SessionState) (secret : Secret)
    (scheme : String) :
    (scheme ∉ allowed_authentication_schemes_login →
      login_op s secret scheme =
        { state := s, effects := [], result := .error (.rejected
            "Authentication scheme must be one of basic, token") }) ∧
    (scheme ∉ allowed_authentication_schemes_register →
      register_op s secret scheme =
        { state := s, effects := [], result := .error (.rejected
            "Authentication scheme must be one of anonymous, basic") }) ∧
    ((secret = .none ∨ secret = .other) →
      scheme ∈ allowed_authentication_schemes_login →
      login_op s secret scheme =
        { state := s, effects := [], result := .error (.rejected
            "Authentication secret must be str or bytes") }) ∧
    ((secret = .none ∨ secret = .other) →
      scheme ∈ allowed_authentication_schemes_register →
      scheme ≠ "anonymous" →
      register_op s secret scheme =
        { state := s, effects := [], result := .error (.rejected
            "Authentication secret must be str or bytes") }) := by
  refine ⟨?_, ?_, ?_, ?_⟩
  · intro h
    simp [login_op, login_validate, h]
  · intro h
    simp [register_op, register_validate, h]
  · intro hsec hmem
    rcases hsec with rfl | rfl <;> simp [login_op, login_validate, hmem]
  · intro hsec hmem hanon
    rcases hsec with rfl | rfl <;>
      simp [register_op, register_validate, hmem, hanon]

/-- Witness for C9: a rejected scheme for login, a rejected scheme for
register, a None secret for login, and a None secret for basic register,
each rejected locally with no state change and no effects. -/
theorem auth_validation_is_local_witness :
    login_op ready_state (.str "a:b") "oauth" =
      { state := ready_state, effects := [], result := .error (.rejected
          "Authentication scheme must be one of basic, token") } ∧
    register_op ready_state (.str "a:b") "token" =
      { state := ready_state, effects := [], result := .error (.rejected
          "Authentication scheme must be one of anonymous, basic") } ∧
    login_op ready_state .none "basic" =
      { state := ready_state, effects := [], result := .error (.rejected
          "Authentication secret must be str or bytes") } ∧
    register_op ready_state .none "basic" =
      { state := ready_state, effects := [], result := .error (.rejected
          "Authentication secret must be str or bytes") } :=
  ⟨(auth_validation_is_local ready_state (.str "a:b") "oauth").1 (by decide),
   (auth_validation_is_local ready_state (.str "a:b") "token").2.1 (by decide),
   (auth_validation_is_local ready_state .none "basic").2.2.1 (Or.inl rfl)
     (by decide),
   (auth_validation_is_local ready_state .none "basic").2.2.2 (Or.inl rfl)
     (by decide) (by decide)⟩

/-! Claim C2: decoding of the correlated ControlReply status. -/

theorem send_round_trip_result (s : SessionState) (p : Payload)
    (reply : ServerCtrl)
    (hstart : s.message_loop_started = true)
    (hstream : s.stream_open = true) :
    (send_round_trip s p reply).2 =
      (match raise_for_ctrl_status { reply with id := s.next_message_id + 1 } with
       | some e => Except.error e
       | Option.none =>
           Except.ok (ServerResp.ctrl { reply with id := s.next_message_id + 1 })) := by
  simp [send_round_trip, send_message_phase1, ensure_message_loop_started,
        hstart, hstream, handle_ctrl_msg, recv_response, alPop,
        alLookup_insert_self]
  cases raise_for_ctrl_status { reply with id := s.next_message_id + 1 } <;>
    rfl

/-- Claim C2: after the correlated ControlReply for a request arrives, the
facade raises Rejected carrying the server-supplied text when the status
code is in [400, 500), raises a fatal server error when the code is in
[500, 600), and otherwise returns the response payload to the caller. -/
theorem ctrl_status_code_mapping (s : SessionState) (p : Payload)
    (reply : ServerCtrl)
    (hstart : s.message_loop_started = true)
    (hstream : s.stream_open = true) :
    (400 ≤ reply.code → reply.code < 500 →
       (send_round_trip s p reply).2 = .error (.rejected reply.text)) ∧
    (500 ≤ reply.code → reply.code < 600 →
       (send_round_trip s p reply).2 =
         .error (.runtimeError ("Server error: " ++ reply.text))) ∧
    ((reply.code < 400 ∨ 600 ≤ reply.code) →
       (send_round_trip s p reply).2 =
         .ok (.ctrl { reply with id := s.next_message_id + 1 })) := by
  have key := send_round_trip_result s p reply hstart hstream
  have hc : ({ reply with id := s.next_message_id + 1 } : ServerCtrl).code =
      reply.code := rfl
  refine ⟨?_, ?_, ?_⟩
  · intro h1 h2
    rw [key]
    have hr : raise_for_ctrl_status { reply with id := s.next_message_id + 1 } =
        some (.rejected reply.text) := by
      unfold raise_for_ctrl_status
      rw [hc, if_pos ⟨h1, h2⟩]
    rw [hr]
  · intro h1 h2
    rw [key]
    have hr : raise_for_ctrl_status { reply with id := s.next_message_id + 1 } =
        some (.runtimeError ("Server error: " ++ reply.text)) := by
      unfold raise_for_ctrl_status
      rw [hc, if_neg (by omega), if_pos ⟨h1, h2⟩]
    rw [hr]
  · intro h
    rw [key]
    have hr : raise_for_ctrl_status { reply with id := s.next_message_id + 1 } =
        Option.none := by
      unfold raise_for_ctrl_status
      rw [hc, if_neg (by omega), if_neg (by omega)]
    rw [hr]

/-- Witness for C2: a 409 reply with text duplicate surfaces as Rejected
carrying duplicate, a 500 reply surfaces as a fatal server error, and a
200 reply is returned as the payload. -/
theorem ctrl_status_code_mapping_witness :
    (send_round_trip ready_state (.sub "t") ⟨0, 409, "duplicate", [], ""⟩).2 =
      .error (.rejected "duplicate") ∧
    (send_round_trip ready_state (.sub "t") ⟨0, 500, "boom", [], ""⟩).2 =
      .error (.runtimeError "Server error: boom") ∧
    (send_round_trip ready_state (.sub "t") ⟨0, 200, "ok", [], ""⟩).2 =
      .ok (.ctrl ⟨101, 200, "ok", [], ""⟩) := by
  refine ⟨?_, ?_, ?_⟩
  · exact (ctrl_status_code_mapping ready_state (.sub "t")
      ⟨0, 409, "duplicate", [], ""⟩ rfl rfl).1 (by decide) (by decide)
  · exact (ctrl_status_code_mapping ready_state (.sub "t")
      ⟨0, 500, "boom", [], ""⟩ rfl rfl).2.1 (by decide) (by decide)
  · exact (ctrl_status_code_mapping ready_state (.sub "t")
      ⟨0, 200, "ok", [], ""⟩ rfl rfl).2.2 (Or.inl (by decide))

/-! State-preservation lemmas: none of the send or dispatch steps touch
the authenticated user id. -/

theorem ensure_userId (s s1 : SessionState)
    (h : ensure_message_loop_started s = .ok s1) : s1.userId = s.userId := by
  unfold ensure_message_loop_started at h
  split_ifs at h <;>
    first
      | (injection h with h; rw [← h])
      | (rw [← h])
      | simp at h

theorem send_phase1_userId (s : SessionState) (p : Payload) (nr : Bool) :
    (send_message_phase1 s p nr).state.userId = s.userId := by
  unfold send_message_phase1
  cases hE : ensure_message_loop_started s with
  | error e => simp [hE]
  | ok s1 =>
      have h1 := ensure_userId s s1 hE
      by_cases hso : s1.stream_open <;> cases nr <;> simp [hE, hso, h1]

theorem handle_ctrl_msg_userId (s : SessionState) (c : ServerCtrl) :
    (handle_ctrl_msg s c).1.userId = s.userId := by
  unfold handle_ctrl_msg
  dsimp only
  split <;> rfl

theorem recv_response_userId (s : SessionState) (mid : Nat)
    (s2 : SessionState) (r : Except PyErr ServerResp)
    (h : recv_response s mid = some (s2, r)) : s2.userId = s.userId := by
  unfold recv_response at h
  dsimp only at h
  split at h
  · split at h
    · simp at h
      obtain ⟨h1, _⟩ := h
      rw [← h1]
    · split at h
      · split at h
        · simp at h
          obtain ⟨h1, _⟩ := h
          rw [← h1]
        · simp at h
          obtain ⟨h1, _⟩ := h
          rw [← h1]
      · simp at h
        obtain ⟨h1, _⟩ := h
        rw [← h1]
  · exact absurd h (by simp)

theorem send_round_trip_userId (s : SessionState) (p : Payload)
    (reply : ServerCtrl) :
    (send_round_trip s p reply).1.userId = s.userId := by
  unfold send_round_trip
  cases hr : (send_message_phase1 s p false).result with
  | error e =>
      simp only [hr]
      exact send_phase1_userId s p false
  | ok mid =>
      simp only [hr]
      cases hh : handle_ctrl_msg (send_message_phase1 s p false).state
          { reply with id := mid } with
      | mk s2 err =>
          have h2 : s2.userId = s.userId := by
            have hcu := handle_ctrl_msg_userId
              (send_message_phase1 s p false).state { reply with id := mid }
            rw [hh] at hcu
            exact hcu.trans (send_phase1_userId s p false)
          cases err with
          | some e =>
              simp only [hh]
              exact h2
          | none =>
              simp only [hh]
              cases hrec : recv_response s2 mid with
              | none =>
                  simp only [hrec]
                  exact h2
              | some pr =>
                  obtain ⟨s3, res⟩ := pr
                  simp only [hrec]
                  exact (recv_response_userId s2 mid s3 res hrec).trans h2

theorem handle_ctrl_msg_success (t : SessionState) (c : ServerCtrl)
    (s2 : SessionState)
    (h : handle_ctrl_msg t c = (s2, Option.none)) :
    alLookup s2.non_data_events c.id = some true ∧
    alLookup s2.non_data_responses c.id = some (.ctrl c) := by
  unfold handle_ctrl_msg at h
  dsimp only at h
  split at h
  · simp at h
  · rw [Prod.mk.injEq] at h
    obtain ⟨h1, -⟩ := h
    rw [← h1]
    exact ⟨alLookup_insert_self .., alLookup_insert_self ..⟩

theorem send_round_trip_error_band_not_ok (s : SessionState) (p : Payload)
    (reply : ServerCtrl) (h4 : 400 ≤ reply.code) (h6 : reply.code < 600)
    (v : ServerResp) : (send_round_trip s p reply).2 ≠ .ok v := by
  unfold send_round_trip
  cases hr : (send_message_phase1 s p false).result with
  | error e => simp [hr]
  | ok mid =>
      simp only [hr]
      cases hh : handle_ctrl_msg (send_message_phase1 s p false).state
          { reply with id := mid } with
      | mk s2 err =>
          cases err with
          | some e => simp [hh]
          | none =>
              obtain ⟨hev, hresp⟩ := handle_ctrl_msg_success _ _ _ hh
              have hc : ({ reply with id := mid } : ServerCtrl).id = mid := rfl
              rw [hc] at hev hresp
              have hcc : ({ reply with id := mid } : ServerCtrl).code =
                  reply.code := rfl
              have hraise : ∃ e,
                  raise_for_ctrl_status { reply with id := mid } = some e := by
                by_cases h5 : reply.code < 500
                · refine ⟨.rejected reply.text, ?_⟩
                  unfold raise_for_ctrl_status
                  exact if_pos ⟨h4, h5⟩
                · refine ⟨.runtimeError ("Server error: " ++ reply.text), ?_⟩
                  unfold raise_for_ctrl_status
                  rw [hcc, if_neg (by omega), if_pos ⟨by omega, h6⟩]
              obtain ⟨e, he⟩ := hraise
              simp [hh, recv_response, hev, alPop, hresp, he]

/-! Claim C10: failed login or register leaves the user id unchanged. -/

theorem user_id_not_logged_in (s : SessionState)
    (h : s.userId = Option.none) :
    user_id s = .error (.runtimeError "Not logged in yet") := by
  unfold user_id
  rw [h]

theorem login_round_trip_userId (s : SessionState) (secret : Secret)
    (scheme : String) (reply : ServerCtrl)
    (hsrc : (∃ e, login_validate secret scheme = .error e) ∨
      (400 ≤ reply.code ∧ reply.code < 600)) :
    (login_round_trip s secret scheme reply).1.userId = s.userId := by
  unfold login_round_trip
  cases hv : login_validate secret scheme with
  | error e => simp
  | ok sec =>
      have hband : 400 ≤ reply.code ∧ reply.code < 600 := by
        rcases hsrc with ⟨e, he⟩ | hb
        · rw [hv] at he
          cases he
        · exact hb
      cases hrt : send_round_trip s (.login scheme sec) reply with
      | mk s1 res =>
          cases res with
          | error e =>
              simp only [hrt]
              have hu := send_round_trip_userId s (.login scheme sec) reply
              rw [hrt] at hu
              exact hu
          | ok v =>
              have hno := send_round_trip_error_band_not_ok s
                (.login scheme sec) reply hband.1 hband.2 v
              rw [hrt] at hno
              exact absurd rfl hno

theorem register_round_trip_userId (s : SessionState) (secret : Secret)
    (scheme : String) (reply : ServerCtrl)
    (hsrc : (∃ e, register_validate secret scheme = .error e) ∨
      (400 ≤ reply.code ∧ reply.code < 600)) :
    (register_round_trip s secret scheme reply).1.userId = s.userId := by
  unfold register_round_trip
  cases hv : register_validate secret scheme with
  | error e => simp
  | ok sec =>
      have hband : 400 ≤ reply.code ∧ reply.code < 600 := by
        rcases hsrc with ⟨e, he⟩ | hb
        · rw [hv] at he
          cases he
        · exact hb
      cases hrt : send_round_trip s (.acc scheme sec true) reply with
      | mk s1 res =>
          cases res with
          | error e =>
              simp only [hrt]
              have hu := send_round_trip_userId s (.acc scheme sec true) reply
              rw [hrt] at hu
              exact hu
          | ok v =>
              have hno := send_round_trip_error_band_not_ok s
                (.acc scheme sec true) reply hband.1 hband.2 v
              rw [hrt] at hno
              exact absurd rfl hno

/-- Claim C10: if login or register raises — a locally rejected scheme or
secret, or a 4xx or 5xx status decoded from the correlated ControlReply —
the authenticated user id of the session is unchanged by the call, and in
particular when no user was authenticated before the call, reading user_id
afterwards still raises the not-logged-in error. -/
theorem auth_failure_preserves_user_id (s : SessionState) (secret : Secret)
    (scheme : String) (reply : ServerCtrl) :
    (((∃ e, login_validate secret scheme = .error e) ∨
        (400 ≤ reply.code ∧ reply.code < 600)) →
      (login_round_trip s secret scheme reply).1.userId = s.userId ∧
      (s.userId = Option.none →
        user_id (login_round_trip s secret scheme reply).1 =
          .error (.runtimeError "Not logged in yet"))) ∧
    (((∃ e, register_validate secret scheme = .error e) ∨
        (400 ≤ reply.code ∧ reply.code < 600)) →
      (register_round_trip s secret scheme reply).1.userId = s.userId ∧
      (s.userId = Option.none →
        user_id (register_round_trip s secret scheme reply).1 =
          .error (.runtimeError "Not logged in yet"))) := by
  constructor
  · intro hsrc
    have hu := login_round_trip_userId s secret scheme reply hsrc
    exact ⟨hu, fun hn => user_id_not_logged_in _ (hu.trans hn)⟩
  · intro hsrc
    have hu := register_round_trip_userId s secret scheme reply hsrc
    exact ⟨hu, fun hn => user_id_not_logged_in _ (hu.trans hn)⟩

/-- Witness for C10: a login answered with a 500 reply and a register
answered with a 409 reply both leave the session unauthenticated, and
user_id still raises afterwards. -/
theorem auth_failure_preserves_user_id_witness :
    (login_round_trip ready_state (.str "a:b") "basic"
        ⟨0, 500, "boom", [], ""⟩).1.userId = Option.none ∧
    user_id (login_round_trip ready_state (.str "a:b") "basic"
        ⟨0, 500, "boom", [], ""⟩).1 =
      .error (.runtimeError "Not logged in yet") ∧
    (register_round_trip ready_state (.str "a:b") "basic"
        ⟨0, 409, "taken", [], ""⟩).1.userId = Option.none ∧
    user_id (register_round_trip ready_state (.str "a:b") "basic"
        ⟨0, 409, "taken", [], ""⟩).1 =
      .error (.runtimeError "Not logged in yet") := by
  have h1 := (auth_failure_preserves_user_id ready_state (.str "a:b") "basic"
    ⟨0, 500, "boom", [], ""⟩).1 (Or.inr (by decide))
  have h2 := (auth_failure_preserves_user_id ready_state (.str "a:b") "basic"
    ⟨0, 409, "taken", [], ""⟩).2 (Or.inr (by decide))
  exact ⟨h1.1.trans rfl, h1.2 rfl, h2.1.trans rfl, h2.2 rfl⟩

/-! Claim C1: correlation correctness of the request/response engine. -/

theorem handle_resp_reg (s : SessionState) (r : ServerResp)
    (h : (alLookup s.non_data_events (resp_id r)).isSome = true) :
    handle_resp s r = (resolved_state s r, Option.none) := by
  cases r with
  | ctrl c =>
      simp only [resp_id] at h
      unfold handle_resp handle_ctrl_msg resolved_state
      dsimp only
      cases hl : alLookup s.non_data_events c.id with
      | none =>
          rw [hl] at h
          simp at h
      | some b => simp [hl, resp_id]
  | meta m =>
      simp only [resp_id] at h
      unfold handle_resp handle_meta_msg resolved_state
      dsimp only
      cases hl : alLookup s.non_data_events m.id with
      | none =>
          rw [hl] at h
          simp at h
      | some b => simp [hl, resp_id]

theorem resolved_state_events (s : SessionState) (r : ServerResp) :
    (resolved_state s r).non_data_events =
      alInsert s.non_data_events (resp_id r) true := rfl

theorem resolved_state_responses (s : SessionState) (r : ServerResp) :
    (resolved_state s r).non_data_responses =
      alInsert s.non_data_responses (resp_id r) r := rfl

theorem dispatch_frame (rs : List ServerResp) (s : SessionState) (i : Nat)
    (hreg : ∀ x ∈ rs, (alLookup s.non_data_events (resp_id x)).isSome = true)
    (hni : ∀ x ∈ rs, resp_id x ≠ i) :
    (dispatch_replies s rs).2 = Option.none ∧
    alLookup (dispatch_replies s rs).1.non_data_events i =
      alLookup s.non_data_events i ∧
    alLookup (dispatch_replies s rs).1.non_data_responses i =
      alLookup s.non_data_responses i := by
  induction rs generalizing s with
  | nil => simp [dispatch_replies]
  | cons x rest ih =>
      have hx := hreg x (by simp)
      simp only [dispatch_replies]
      rw [handle_resp_reg s x hx]
      have hreg1 : ∀ y ∈ rest,
          (alLookup (resolved_state s x).non_data_events
            (resp_id y)).isSome = true := by
        intro y hy
        rw [resolved_state_events]
        exact alLookup_insert_isSome _ _ _ _ (hreg y (by simp [hy]))
      have hni1 : ∀ y ∈ rest, resp_id y ≠ i := fun y hy => hni y (by simp [hy])
      obtain ⟨ha, hb, hc⟩ := ih (resolved_state s x) hreg1 hni1
      refine ⟨ha, ?_, ?_⟩
      · rw [hb, resolved_state_events]
        exact alLookup_insert_ne _ _ _ _ (hni x (by simp))
      · rw [hc, resolved_state_responses]
        exact alLookup_insert_ne _ _ _ _ (hni x (by simp))

theorem recv_response_ready (t : SessionState) (mid : Nat) (r : ServerResp)
    (hev : alLookup t.non_data_events mid = some true)
    (hresp : alLookup t.non_data_responses mid = some r)
    (hok : resp_success r = true) :
    ∃ s2, recv_response t mid = some (s2, .ok r) := by
  cases r with
  | ctrl c =>
      have hro : raise_for_ctrl_status c = Option.none := by
        simp only [resp_success, Bool.or_eq_true, decide_eq_true_eq] at hok
        unfold raise_for_ctrl_status
        rcases hok with h | h
        · rw [if_neg (by omega), if_neg (by omega)]
        · rw [if_neg (by omega), if_neg (by omega)]
      unfold recv_response
      rw [hev]
      dsimp only
      unfold alPop
      rw [hresp]
      dsimp only
      rw [hro]
      exact ⟨_, rfl⟩
  | meta m =>
      unfold recv_response
      rw [hev]
      dsimp only
      unfold alPop
      rw [hresp]
      dsimp only
      exact ⟨_, rfl⟩

/-- Claim C1: for every set of concurrently in-flight requests with
distinct correlation ids (each id registered in the correlation table),
and for every order in which the correlated ControlReply and MetaReply
envelopes arrive on the stream, the dispatch loop raises no exception and
each caller awaiting in __send_message receives exactly the response
payload whose id matches its own request. -/
theorem correlation_delivers_matching_reply (rs : List ServerResp)
    (s0 : SessionState) (r : ServerResp)
    (hreg : ∀ x ∈ rs, (alLookup s0.non_data_events (resp_id x)).isSome = true)
    (hnodup : (rs.map resp_id).Nodup)
    (hmem : r ∈ rs)
    (hok : resp_success r = true) :
    (dispatch_replies s0 rs).2 = Option.none ∧
    (∃ s2, recv_response (dispatch_replies s0 rs).1 (resp_id r) =
      some (s2, .ok r)) := by
  induction rs generalizing s0 with
  | nil => cases hmem
  | cons x rest ih =>
      have hx := hreg x (by simp)
      simp only [dispatch_replies]
      rw [handle_resp_reg s0 x hx]
      have hnodup1 : (rest.map resp_id).Nodup :=
        (List.nodup_cons.mp (by simpa using hnodup)).2
      have hxnot : resp_id x ∉ rest.map resp_id :=
        (List.nodup_cons.mp (by simpa using hnodup)).1
      have hreg1 : ∀ y ∈ rest,
          (alLookup (resolved_state s0 x).non_data_events
            (resp_id y)).isSome = true := by
        intro y hy
        rw [resolved_state_events]
        exact alLookup_insert_isSome _ _ _ _ (hreg y (by simp [hy]))
      rcases List.mem_cons.mp hmem with rfl | hmem2
      · have hni : ∀ y ∈ rest, resp_id y ≠ resp_id r := by
          intro y hy hEq
          exact hxnot (hEq ▸ List.mem_map_of_mem resp_id hy)
        obtain ⟨ha, hb, hc⟩ :=
          dispatch_frame rest (resolved_state s0 r) (resp_id r) hreg1 hni
        refine ⟨ha, ?_⟩
        have hev : alLookup
            (dispatch_replies (resolved_state s0 r) rest).1.non_data_events
            (resp_id r) = some true := by
          rw [hb, resolved_state_events]
          exact alLookup_insert_self ..
        have hresp : alLookup
            (dispatch_replies (resolved_state s0 r) rest).1.non_data_responses
            (resp_id r) = some r := by
          rw [hc, resolved_state_responses]
          exact alLookup_insert_self ..
        exact recv_response_ready _ _ _ hev hresp hok
      · exact ih (resolved_state s0 x) hreg1 hnodup1 hmem2

/-- Witness for C1: callers 101, 102 and 103 are in flight; the replies
arrive in the order 103, 101, 102; the caller awaiting 101 receives
exactly the payload bearing id 101. -/
theorem correlation_delivers_matching_reply_witness :
    (dispatch_replies
        { ready_state with
            non_data_events := [(101, false), (102, false), (103, false)] }
        [.ctrl ⟨103, 200, "third", [], ""⟩, .ctrl ⟨101, 200, "first", [], ""⟩,
         .meta ⟨102, "second"⟩]).2 = Option.none ∧
    (∃ s2, recv_response
        (dispatch_replies
          { ready_state with
              non_data_events := [(101, false), (102, false), (103, false)] }
          [.ctrl ⟨103, 200, "third", [], ""⟩,
           .ctrl ⟨101, 200, "first", [], ""⟩,
           .meta ⟨102, "second"⟩]).1
        (resp_id (.ctrl ⟨101, 200, "first", [], ""⟩)) =
      some (s2, .ok (.ctrl ⟨101, 200, "first", [], ""⟩))) :=
  correlation_delivers_matching_reply
    [.ctrl ⟨103, 200, "third", [], ""⟩, .ctrl ⟨101, 200, "first", [], ""⟩,
     .meta ⟨102, "second"⟩]
    { ready_state with
        non_data_events := [(101, false), (102, false), (103, false)] }
    (.ctrl ⟨101, 200, "first", [], ""⟩)
    (by decide) (by decide) (by decide) (by decide)

end Chat
